import Mathlib

/-!
Verification of the utility module (`utils.py`): identifier generation
(`get_new_id`), template resolution (`parse_with_jinja`), list formatting
(`get_comma_sep_string_from_list`) and the entity-existence check
(`check_existence_of_name`).

The module's algorithmic dependencies (SHA-1, URL-safe base64, UTF-8
encoding, decimal rendering of integers, and a variable-substitution
templating engine) are embedded as executable Lean functions.  Machine
words are represented as `Nat` with explicit reduction modulo `2 ^ 32`;
bytes are `Nat` values below `256`.
-/

/- ## URL-safe base64 (`base64.urlsafe_b64encode`) -/

/-- The URL-safe base64 alphabet: the standard alphabet with `+` and `/`
replaced by `-` and `_`. -/
def b64UrlAlphabet : List Char :=
  "ABCDEFGHIJKLMNOPQRSTUVWXYZabcdefghijklmnopqrstuvwxyz0123456789-_".toList

/-- The character encoding a 6-bit group. -/
def b64Char (n : Nat) : Char := b64UrlAlphabet.getD n '?'

/-- URL-safe base64 encoding of a byte list, with `=` padding, as produced
by `base64.urlsafe_b64encode`. -/
def b64Encode : List Nat → List Char
  | [] => []
  | [b0] => [b64Char (b0 / 4), b64Char ((b0 % 4) * 16), '=', '=']
  | [b0, b1] =>
      [b64Char (b0 / 4), b64Char ((b0 % 4) * 16 + b1 / 16),
       b64Char ((b1 % 16) * 4), '=']
  | b0 :: b1 :: b2 :: rest =>
      b64Char (b0 / 4) :: b64Char ((b0 % 4) * 16 + b1 / 16) ::
      b64Char ((b1 % 16) * 4 + b2 / 64) :: b64Char (b2 % 64) :: b64Encode rest

/- ## UTF-8 encoding (`unicode.encode('utf-8')`) -/

/-- UTF-8 encoding of a single code point. -/
def utf8EncodeChar (c : Char) : List Nat :=
  let n := c.toNat
  if n < 128 then [n]
  else if n < 2048 then [192 + n / 64, 128 + n % 64]
  else if n < 65536 then [224 + n / 4096, 128 + (n / 64) % 64, 128 + n % 64]
  else [240 + n / 262144, 128 + (n / 4096) % 64, 128 + (n / 64) % 64,
        128 + n % 64]

/-- UTF-8 encoding of a character list. -/
def utf8EncodeList : List Char → List Nat
  | [] => []
  | c :: rest => utf8EncodeChar c ++ utf8EncodeList rest

/-- UTF-8 encoding of a string. -/
def utf8Encode (s : String) : List Nat := utf8EncodeList s.toList

/- ## SHA-1 (`hashlib.sha1`) -/

/-- `2 ^ 32`, the word modulus of SHA-1. -/
def pow32 : Nat := 4294967296

/-- Left rotation of a 32-bit word by `n` places. -/
def rotl (n w : Nat) : Nat := ((w <<< n) % pow32) ||| ((w % pow32) >>> (32 - n))

/-- The `k` bytes of `n` in big-endian order. -/
def beBytes : Nat → Nat → List Nat
  | 0, _ => []
  | k + 1, n => beBytes k (n / 256) ++ [n % 256]

/-- Big-endian packing of bytes into 32-bit words. -/
def bytesToWords : List Nat → List Nat
  | b0 :: b1 :: b2 :: b3 :: rest =>
      (b0 * 16777216 + b1 * 65536 + b2 * 256 + b3) :: bytesToWords rest
  | _ => []

/-- SHA-1 message padding: a `1` bit, zero bytes up to 56 mod 64, then the
bit length in 8 big-endian bytes. -/
def sha1Pad (msg : List Nat) : List Nat :=
  msg ++ 128 :: List.replicate ((119 - msg.length % 64) % 64) 0
      ++ beBytes 8 (8 * msg.length)

/-- The SHA-1 initial chaining state. -/
def sha1InitState : Nat × Nat × Nat × Nat × Nat :=
  (1732584193, 4023233417, 2562383102, 271733878, 3285377520)

/-- The SHA-1 round function for round `i`. -/
def sha1F (i b c d : Nat) : Nat :=
  if i < 20 then (b &&& c) ||| (((pow32 - 1) ^^^ b) &&& d)
  else if i < 40 then b ^^^ (c ^^^ d)
  else if i < 60 then (b &&& c) ||| ((b &&& d) ||| (c &&& d))
  else b ^^^ (c ^^^ d)

/-- The SHA-1 round constant for round `i`. -/
def sha1K (i : Nat) : Nat :=
  if i < 20 then 1518500249
  else if i < 40 then 1859775393
  else if i < 60 then 2400959708
  else 3395469782

/-- Message-schedule extension: `acc` holds the schedule so far in reverse
order; each step produces one further word. -/
def sha1ExtendAux : Nat → List Nat → List Nat
  | 0, acc => acc
  | k + 1, acc =>
      let w := rotl 1 ((acc.getD 2 0) ^^^ ((acc.getD 7 0) ^^^
        ((acc.getD 13 0) ^^^ (acc.getD 15 0))))
      sha1ExtendAux k (w :: acc)

/-- The 80-word message schedule of a 16-word block. -/
def sha1Schedule (block : List Nat) : List Nat :=
  (sha1ExtendAux 64 block.reverse).reverse

/-- The 80 SHA-1 rounds, starting at round index `i`. -/
def sha1Rounds : Nat → Nat × Nat × Nat × Nat × Nat → List Nat →
    Nat × Nat × Nat × Nat × Nat
  | _, st, [] => st
  | i, (a, b, c, d, e), w :: ws =>
      let temp := (rotl 5 a + sha1F i b c d + e + sha1K i + w) % pow32
      sha1Rounds (i + 1) (temp, a, rotl 30 b, c, d) ws

/-- Compression of one 16-word block into the chaining state. -/
def sha1Compress (h : Nat × Nat × Nat × Nat × Nat) (block : List Nat) :
    Nat × Nat × Nat × Nat × Nat :=
  let s := sha1Rounds 0 (h.1, h.2.1, h.2.2.1, h.2.2.2.1, h.2.2.2.2)
    (sha1Schedule block)
  ((h.1 + s.1) % pow32, (h.2.1 + s.2.1) % pow32, (h.2.2.1 + s.2.2.1) % pow32,
   (h.2.2.2.1 + s.2.2.2.1) % pow32, (h.2.2.2.2 + s.2.2.2.2) % pow32)

/-- Iterated compression over the padded word stream, 16 words at a time. -/
def sha1Blocks (h : Nat × Nat × Nat × Nat × Nat) :
    List Nat → Nat × Nat × Nat × Nat × Nat
  | w0 :: w1 :: w2 :: w3 :: w4 :: w5 :: w6 :: w7 :: w8 :: w9 :: w10 :: w11 ::
      w12 :: w13 :: w14 :: w15 :: rest =>
      sha1Blocks (sha1Compress h
        [w0, w1, w2, w3, w4, w5, w6, w7, w8, w9, w10, w11, w12, w13, w14, w15])
        rest
  | _ => h

/-- Serialisation of the final chaining state as 20 digest bytes. -/
def sha1Digest (s : Nat × Nat × Nat × Nat × Nat) : List Nat :=
  beBytes 4 s.1 ++ beBytes 4 s.2.1 ++ beBytes 4 s.2.2.1 ++
    beBytes 4 s.2.2.2.1 ++ beBytes 4 s.2.2.2.2

/-- The SHA-1 digest (20 bytes) of a byte message. -/
def sha1 (msg : List Nat) : List Nat :=
  sha1Digest (sha1Blocks sha1InitState (bytesToWords (sha1Pad msg)))

/- ## Decimal rendering of a counter (Python `str(seed)`) -/

/-- Decimal digit bytes of `n`, with fuel. -/
def decimalDigitsAux : Nat → Nat → List Nat
  | 0, _ => []
  | fuel + 1, n =>
      if n < 10 then [48 + n]
      else decimalDigitsAux fuel (n / 10) ++ [48 + n % 10]

/-- ASCII bytes of the decimal representation of `n`, as produced by
Python string formatting of an integer. -/
def decimalDigits (n : Nat) : List Nat := decimalDigitsAux (n + 1) n

/- ## `get_new_id` -/

/-- The byte string hashed for candidate `j`: the UTF-8 encoding of the
entity name for `j = 0`, and the encoded name with the decimal counter
appended for `j >= 1` (`'%s%s' % (entity_name.encode('utf-8'), seed)`). -/
def hashInput (name : String) : Nat → List Nat
  | 0 => utf8Encode name
  | j + 1 => utf8Encode name ++ decimalDigits (j + 1)

/-- Candidate `j` of `get_new_id`: the first 10 characters of the URL-safe
base64 encoding of the SHA-1 digest of `hashInput name j`. -/
def candidate (name : String) (j : Nat) : List Char :=
  (b64Encode (sha1 (hashInput name j))).take 10

/-- The `while entity.get_by_id(new_id)` loop of `get_new_id`, with the
current counter value and explicit fuel bounding the number of
iterations that are unrolled. -/
def getNewIdLoop (entityGet : List Char → Bool) (name : String) :
    Nat → Nat → Option (List Char)
  | _, 0 => none
  | seed, fuel + 1 =>
      if entityGet (candidate name seed) then
        getNewIdLoop entityGet name (seed + 1) fuel
      else some (candidate name seed)

/-- Translation of `get_new_id`.  The datastore lookup
`entity.get_by_id(new_id)` is the injected existence predicate
`entityGet`; `none` is returned only when the fuel is exhausted before the
loop exits. -/
def get_new_id (entityGet : List Char → Bool) (name : String) (fuel : Nat) :
    Option (List Char) :=
  getNewIdLoop entityGet name 0 fuel

/- ## Templating engine (consumed external collaborator)

Modelled from the spec: the templating engine used by `parse_with_jinja`
is not part of this repository; the spec describes it as an external
collaborator with capabilities `parse(text) -> tree`,
`find_undeclared_variables(tree) -> set<string>` and
`render(text, params) -> string`, where a missing variable at render time
is the failure mode the resolver must avoid.  It is modelled here as a
variable-substitution language: a template is a sequence of literal runs
and variable references written between double braces. -/

/-- A parsed template item: a literal run or a variable reference. -/
inductive TemplateItem
  | lit (s : String)
  | var (name : String)
deriving DecidableEq, Repr

/-- A parsed template. -/
abbrev Template := List TemplateItem

/-- Errors surfaced by the template resolver. -/
inductive JinjaError
  | templateSyntaxError (msg : String)
  | undefinedError (msg : String)
deriving DecidableEq, Repr

/-- The opening brace character. -/
def lbrace : Char := Char.ofNat 123

/-- The closing brace character. -/
def rbrace : Char := Char.ofNat 125

/-- Whether a character may appear in a variable name. -/
def isIdentChar (c : Char) : Bool := c.isAlphanum || c = '_'

/-- Longest identifier prefix of a character list, with the rest. -/
def readIdent : List Char → List Char × List Char
  | [] => ([], [])
  | c :: rest =>
      if isIdentChar c then
        let r := readIdent rest
        (c :: r.1, r.2)
      else ([], c :: rest)

/-- Drops leading spaces. -/
def skipSpaces : List Char → List Char
  | [] => []
  | c :: rest => if c = ' ' then skipSpaces rest else c :: rest

/-- Modelled from the spec: parsing of one variable reference after an
opening double brace: optional spaces, a nonempty identifier, optional
spaces, and a closing double brace. -/
def parseVar (cs : List Char) : Except JinjaError (String × List Char) :=
  let r := readIdent (skipSpaces cs)
  if r.1.isEmpty then .error (.templateSyntaxError "expected a variable name")
  else
    match skipSpaces r.2 with
    | c1 :: c2 :: rest =>
        if c1 = rbrace && c2 = rbrace then .ok (String.mk r.1, rest)
        else .error (.templateSyntaxError "expected end of variable block")
    | _ => .error (.templateSyntaxError "unexpected end of template")

/-- Prepends a pending literal run (held in reverse) to a template. -/
def flushLit (acc : List Char) (t : Template) : Template :=
  if acc.isEmpty then t else .lit (String.mk acc.reverse) :: t

/-- Modelled from the spec: the template scanner.  `acc` holds the current
literal run in reverse; the fuel bounds the number of characters
consumed and is chosen large enough by `parseTemplate`. -/
def parseItemsAux : Nat → List Char → List Char → Except JinjaError Template
  | 0, _, _ => .error (.templateSyntaxError "template too long")
  | _ + 1, acc, [] => .ok (flushLit acc [])
  | fuel + 1, acc, c :: rest =>
      if c = lbrace then
        match rest with
        | c2 :: rest2 =>
            if c2 = lbrace then
              match parseVar rest2 with
              | .error e => .error e
              | .ok (v, rest3) =>
                  match parseItemsAux fuel [] rest3 with
                  | .error e => .error e
                  | .ok t => .ok (flushLit acc (.var v :: t))
            else parseItemsAux fuel (c :: acc) rest
        | [] => parseItemsAux fuel (c :: acc) []
      else parseItemsAux fuel (c :: acc) rest

/-- Modelled from the spec: `parse(text) -> tree` of the templating
engine.  Raises a syntax error on malformed variable blocks. -/
def parseTemplate (s : String) : Except JinjaError Template :=
  parseItemsAux (s.toList.length + 1) [] s.toList

/-- The variable references of a template, in order, with repetitions. -/
def templateVars : Template → List String
  | [] => []
  | .lit _ :: rest => templateVars rest
  | .var v :: rest => v :: templateVars rest

/-- Modelled from the spec: `find_undeclared_variables(tree)` of the
templating engine, a set of variable names (determinised as a
duplicate-free list). -/
def findUndeclaredVariables (t : Template) : List String :=
  (templateVars t).dedup

/-- Dictionary lookup in an association list (Python `d[k]`). -/
def lookupKey (k : String) : List (String × String) → Option String
  | [] => none
  | p :: rest => if p.1 = k then some p.2 else lookupKey k rest

/-- Key membership in an association list (Python `k in d`). -/
def containsKey (k : String) (l : List (String × String)) : Bool :=
  (lookupKey k l).isSome

/-- Modelled from the spec: `render(text, params) -> string` of the
templating engine; a variable missing from the render context is the
failure case (`none`). -/
def render : Template → List (String × String) → Option String
  | [], _ => some ""
  | .lit l :: rest, p => (render rest p).map (fun r => l ++ r)
  | .var v :: rest, p =>
      match lookupKey v p with
      | none => none
      | some val => (render rest p).map (fun r => val ++ r)

/- ## `parse_with_jinja` -/

/-- A diagnostic event, as emitted by
`logging.info('Cannot parse %s properly using %s', string, params)`:
it carries the template text and the parameter mapping that were
interpolated into the message. -/
abbrev JinjaDiag := String × List (String × String)

/-- The `for var in variables` loop of `parse_with_jinja`, threading the
mutable dictionary state explicitly: the first component of the state is
the caller's dictionary `params`, the second the working copy
`new_params`.  Missing variables are inserted into the working copy with
the default value, and one diagnostic event is recorded per insertion. -/
def parseWithJinjaLoop (s : String) (dflt : String) :
    List String → List (String × String) × List (String × String) →
    (List (String × String) × List (String × String)) × List JinjaDiag
  | [], st => (st, [])
  | v :: vs, (params, newParams) =>
      if containsKey v newParams then
        parseWithJinjaLoop s dflt vs (params, newParams)
      else
        let r := parseWithJinjaLoop s dflt vs (params, newParams ++ [(v, dflt)])
        (r.1, (s, params) :: r.2)

/-- The observable outcome of a successful `parse_with_jinja` call. -/
structure RenderOutcome where
  rendered : String
  diags : List JinjaDiag
  callerParams : List (String × String)
deriving DecidableEq, Repr

/-- Translation of `parse_with_jinja`: parse the template, find its
undeclared variables, deep-copy the parameter dictionary, insert the
default for each variable missing from the copy (logging one diagnostic
each), and render against the augmented copy.  `callerParams` is the
caller's dictionary when the call returns. -/
def parse_with_jinja (s : String) (params : List (String × String))
    (dflt : String) : Except JinjaError RenderOutcome :=
  match parseTemplate s with
  | .error e => .error e
  | .ok t =>
      let undeclaredVars := findUndeclaredVariables t
      let r := parseWithJinjaLoop s dflt undeclaredVars (params, params)
      match render t r.1.2 with
      | none => .error (.undefinedError "undefined variable")
      | some out => .ok ⟨out, r.2, r.1.1⟩

/-- The caller's mapping augmented with the default value for each listed
variable absent from it, in the claim's words. -/
def specAugment (params : List (String × String)) (vars : List String)
    (dflt : String) : List (String × String) :=
  params ++ (vars.filter (fun v => !containsKey v params)).map
    (fun v => (v, dflt))

/- ## `get_comma_sep_string_from_list` -/

/-- Translation of `get_comma_sep_string_from_list`. -/
def get_comma_sep_string_from_list (items : List String) : String :=
  if items.isEmpty then ""
  else if items.length = 1 then items.headD ""
  else String.intercalate ", " items.dropLast ++ " and " ++ items.getLast!

/- ## `check_existence_of_name` -/

/-- Errors raised by `check_existence_of_name`.  The
`EntityIdNotFoundError` constructor carries the two arguments of the
Python `raise` (format string and entity type). -/
inductive CheckError
  | entityIdNotFoundError (fmt : String) (arg : String)
  | keyError (msg : String)
deriving DecidableEq, Repr

/-- A datastore query issued by `check_existence_of_name`: the optional
ancestor key and the name filter. -/
structure DatastoreQuery where
  ancestorKey : Option Nat
  nameFilter : String
deriving DecidableEq, Repr

/-- An entity class as used by `check_existence_of_name`: its `__name__`,
whether it is the `State` class, and the datastore's answer to a
name-filtered query (the key of a matching entity, if any). -/
structure EntityClass where
  className : String
  isStateClass : Bool
  runQuery : Option Nat → String → Option Nat

/-- Translation of `check_existence_of_name`, returning the result
(or raised error) together with the list of datastore queries that were
performed during the call. -/
def check_existence_of_name (entity : EntityClass) (name : String)
    (ancestor : Option Nat) : Except CheckError Bool × List DatastoreQuery :=
  let entityType := entity.className.toLower
  if name = "" then
    (.error (.entityIdNotFoundError "No %s name supplied" entityType), [])
  else
    match ancestor with
    | some anc =>
        (.ok (entity.runQuery (some anc) name).isSome, [⟨some anc, name⟩])
    | none =>
        if entity.isStateClass then
          (.error (.keyError "Queries for state entities must include ancestors."), [])
        else
          (.ok (entity.runQuery none name).isSome, [⟨none, name⟩])

/- ## Helper lemmas: digest shape and base64 alphabet -/

/-- The four big-endian bytes of a word exhibited explicitly. -/
theorem beBytes_four (n : Nat) :
    beBytes 4 n =
      [n / 256 / 256 / 256 % 256, n / 256 / 256 % 256, n / 256 % 256,
       n % 256] := rfl

/-- The first 10 characters of the base64 encoding of a digest, exhibited
as explicit 6-bit groups of the five state words. -/
theorem b64_sha1Digest_take (h0 h1 h2 h3 h4 : Nat) :
    (b64Encode (sha1Digest (h0, h1, h2, h3, h4))).take 10 =
      [b64Char (h0 / 256 / 256 / 256 % 256 / 4),
       b64Char (h0 / 256 / 256 / 256 % 256 % 4 * 16 + h0 / 256 / 256 % 256 / 16),
       b64Char (h0 / 256 / 256 % 256 % 16 * 4 + h0 / 256 % 256 / 64),
       b64Char (h0 / 256 % 256 % 64),
       b64Char (h0 % 256 / 4),
       b64Char (h0 % 256 % 4 * 16 + h1 / 256 / 256 / 256 % 256 / 16),
       b64Char (h1 / 256 / 256 / 256 % 256 % 16 * 4 + h1 / 256 / 256 % 256 / 64),
       b64Char (h1 / 256 / 256 % 256 % 64),
       b64Char (h1 / 256 % 256 / 4),
       b64Char (h1 / 256 % 256 % 4 * 16 + h1 % 256 / 16)] := rfl

/-- Every candidate identifier has exactly 10 characters. -/
theorem candidate_length (name : String) (j : Nat) :
    (candidate name j).length = 10 := by
  unfold candidate sha1
  generalize sha1Blocks sha1InitState (bytesToWords (sha1Pad (hashInput name j))) = st
  obtain ⟨h0, h1, h2, h3, h4⟩ := st
  rw [b64_sha1Digest_take]
  rfl

/-- A 6-bit group encodes to a character of the URL-safe alphabet. -/
theorem b64Char_mem (n : Nat) (h : n < 64) : b64Char n ∈ b64UrlAlphabet := by
  unfold b64Char
  have hlen : n < b64UrlAlphabet.length := by
    have : b64UrlAlphabet.length = 64 := rfl
    omega
  rw [List.getD_eq_getElem b64UrlAlphabet '?' hlen]
  exact List.getElem_mem hlen

/-- Every character of a candidate identifier is in the URL-safe base64
alphabet. -/
theorem mem_candidate_urlsafe (name : String) (j : Nat) :
    ∀ c ∈ candidate name j, c ∈ b64UrlAlphabet := by
  unfold candidate sha1
  generalize sha1Blocks sha1InitState (bytesToWords (sha1Pad (hashInput name j))) = st
  obtain ⟨h0, h1, h2, h3, h4⟩ := st
  rw [b64_sha1Digest_take]
  intro c hc
  simp only [List.mem_cons, List.not_mem_nil, or_false] at hc
  rcases hc with h | h | h | h | h | h | h | h | h | h <;>
    (subst h; apply b64Char_mem; omega)

/- ## Helper lemmas: the `get_new_id` loop -/

/-- If every candidate index in `[seed, k)` is reported present and `k`
is reported absent, the loop started at `seed` with more than `k - seed`
iterations of fuel returns candidate `k`. -/
theorem getNewIdLoop_eq (ex : List Char → Bool) (name : String) :
    ∀ (fuel seed k : Nat), seed ≤ k → k < seed + fuel →
      (∀ j, seed ≤ j → j < k → ex (candidate name j) = true) →
      ex (candidate name k) = false →
      getNewIdLoop ex name seed fuel = some (candidate name k) := by
  intro fuel
  induction fuel with
  | zero => intro seed k h1 h2 _ _; omega
  | succ f ih =>
      intro seed k h1 h2 htaken hfree
      rw [getNewIdLoop]
      rcases Nat.eq_or_lt_of_le h1 with heq | hlt
      · subst heq
        rw [hfree]
        simp
      · rw [htaken seed (Nat.le_refl seed) hlt]
        exact ih (seed + 1) k hlt (by omega) (fun j hj => htaken j (by omega)) hfree

/-- Two existence predicates that agree on every candidate drive the loop
to the same result. -/
theorem getNewIdLoop_congr (ex1 ex2 : List Char → Bool) (name : String)
    (h : ∀ j, ex1 (candidate name j) = ex2 (candidate name j)) :
    ∀ (fuel seed : Nat),
      getNewIdLoop ex1 name seed fuel = getNewIdLoop ex2 name seed fuel := by
  intro fuel
  induction fuel with
  | zero => intro seed; rfl
  | succ f ih =>
      intro seed
      rw [getNewIdLoop, getNewIdLoop, h seed]
      cases ex2 (candidate name seed) with
      | true => simp only [if_true]; exact ih (seed + 1)
      | false => rfl


/- ## Helper lemmas: association lists -/

/-- Key membership distributes over append. -/
theorem containsKey_append (k : String) (l1 l2 : List (String × String)) :
    containsKey k (l1 ++ l2) = (containsKey k l1 || containsKey k l2) := by
  induction l1 with
  | nil => simp [containsKey, lookupKey]
  | cons p rest ih =>
      by_cases hp : p.1 = k
      · simp [containsKey, lookupKey, hp]
      · simpa [containsKey, lookupKey, hp] using ih

/-- A filter over a list only depends on the predicate's values on the
list. -/
theorem filter_eq_of_agree {α : Type} (p q : α → Bool) :
    ∀ l : List α, (∀ x ∈ l, p x = q x) → l.filter p = l.filter q := by
  intro l
  induction l with
  | nil => intro _; rfl
  | cons a rest ih =>
      intro h
      rw [List.filter, List.filter, h a (List.mem_cons_self a rest),
        ih (fun x hx => h x (List.mem_cons_of_mem a hx))]

/-- Tagging every element of a list with a value makes each element a
present key. -/
theorem containsKey_map_self (dflt : String) :
    ∀ (l : List String) (v : String), v ∈ l →
      containsKey v (l.map (fun x => (x, dflt))) = true := by
  intro l
  induction l with
  | nil => intro v hv; cases hv
  | cons a rest ih =>
      intro v hv
      by_cases hav : a = v
      · simp [containsKey, lookupKey, hav]
      · rcases List.mem_cons.mp hv with h | h
        · exact absurd h.symm hav
        · simpa [containsKey, lookupKey, hav] using ih v h

/-- Every listed variable is a present key of the augmented mapping. -/
theorem containsKey_specAugment (params : List (String × String))
    (dflt : String) (vars : List String) (v : String) (hv : v ∈ vars) :
    containsKey v (specAugment params vars dflt) = true := by
  rw [specAugment, containsKey_append]
  by_cases hp : containsKey v params
  · simp [hp]
  · have hmem : v ∈ vars.filter (fun x => !containsKey x params) :=
      List.mem_filter.mpr ⟨hv, by simp [hp]⟩
    simp [containsKey_map_self dflt _ v hmem]

/- ## Helper lemmas: the template resolver -/

/-- Rendering succeeds whenever every referenced variable is a present
key of the render context. -/
theorem render_isSome (M : List (String × String)) :
    ∀ t : Template, (∀ v ∈ templateVars t, containsKey v M = true) →
      (render t M).isSome = true := by
  intro t
  induction t with
  | nil => intro _; rfl
  | cons item rest ih =>
      intro h
      cases item with
      | lit l =>
          have := ih (fun v hv => h v (by simpa [templateVars] using hv))
          rw [render]
          cases hrest : render rest M with
          | none => rw [hrest] at this; cases this
          | some r => simp
      | var v =>
          have hv : containsKey v M = true := h v (by simp [templateVars])
          obtain ⟨val, hval⟩ := Option.isSome_iff_exists.mp hv
          have := ih (fun x hx => h x (by simp [templateVars, hx]))
          rw [render, hval]
          cases hrest : render rest M with
          | none => rw [hrest] at this; cases this
          | some r => simp

/-- The `for var in variables` loop computed in closed form: for a
duplicate-free variable list it augments the working copy with the
default at precisely the variables missing from it, and records one
diagnostic event, carrying the template text and the caller's mapping,
per such variable.  The caller's mapping is returned unchanged. -/
theorem parseWithJinjaLoop_eq (s dflt : String) :
    ∀ (vs : List String) (params np : List (String × String)), vs.Nodup →
      parseWithJinjaLoop s dflt vs (params, np) =
        ((params,
          np ++ (vs.filter (fun v => !containsKey v np)).map (fun v => (v, dflt))),
         (vs.filter (fun v => !containsKey v np)).map (fun _ => (s, params))) := by
  intro vs
  induction vs with
  | nil => intro params np _; simp [parseWithJinjaLoop]
  | cons v rest ih =>
      intro params np hnd
      obtain ⟨hv, hnd'⟩ := List.nodup_cons.mp hnd
      by_cases hc : containsKey v np
      · rw [parseWithJinjaLoop, if_pos hc, ih params np hnd', List.filter]
        simp [hc]
      · have hagree : ∀ x ∈ rest,
            (!containsKey x (np ++ [(v, dflt)])) = (!containsKey x np) := by
          intro x hx
          have hxv : v ≠ x := fun h => hv (h ▸ hx)
          rw [containsKey_append]
          simp [containsKey, lookupKey, hxv]
        rw [parseWithJinjaLoop, if_neg hc, ih params (np ++ [(v, dflt)]) hnd',
          filter_eq_of_agree _ _ rest hagree, List.filter]
        simp [hc, List.append_assoc]

/-- Master lemma for `parse_with_jinja` on a template that parses: the
call succeeds, renders against the augmented mapping, emits one
diagnostic per missing undeclared variable, and returns the caller's
mapping unchanged. -/
theorem parse_with_jinja_ok (s : String) (params : List (String × String))
    (dflt : String) (t : Template) (h : parseTemplate s = .ok t) :
    ∃ out : String,
      render t (specAugment params (findUndeclaredVariables t) dflt) = some out ∧
      parse_with_jinja s params dflt = .ok ⟨out,
        ((findUndeclaredVariables t).filter (fun v => !containsKey v params)).map
          (fun _ => (s, params)), params⟩ := by
  have hnd : (findUndeclaredVariables t).Nodup := List.nodup_dedup _
  have hren :
      (render t (specAugment params (findUndeclaredVariables t) dflt)).isSome = true := by
    apply render_isSome
    intro v hv
    exact containsKey_specAugment params dflt _ v
      (by rw [findUndeclaredVariables]; exact List.mem_dedup.mpr hv)
  obtain ⟨out, hout⟩ := Option.isSome_iff_exists.mp hren
  refine ⟨out, hout, ?_⟩
  have hout2 : render t (params ++
      ((findUndeclaredVariables t).filter (fun v => !containsKey v params)).map
        (fun v => (v, dflt))) = some out := hout
  rw [parse_with_jinja, h]
  simp only [parseWithJinjaLoop_eq s dflt (findUndeclaredVariables t) params params hnd]
  rw [hout2]

/-- Claim C3: for every syntactically valid template and every parameter
mapping, the template resolver never fails because of a missing
variable: it returns the template rendered against the caller's mapping
augmented with the default value for each undeclared variable absent
from the mapping. -/
theorem jinja_renders_with_defaults (s : String) (params : List (String × String))
    (dflt : String) (t : Template) (h : parseTemplate s = .ok t) :
    ∃ r : RenderOutcome, parse_with_jinja s params dflt = .ok r ∧
      render t (specAugment params (findUndeclaredVariables t) dflt) =
        some r.rendered := by
  obtain ⟨out, hout, hok⟩ := parse_with_jinja_ok s params dflt t h
  exact ⟨_, hok, hout⟩

/-- Witness for C3 at the spec's example: rendering the two-variable
template with one parameter supplied and default value substituted for
the other yields the expected outcome. -/
theorem jinja_renders_with_defaults_witness :
    parseTemplate "\x7b\x7b a \x7d\x7d and \x7b\x7b b \x7d\x7d" =
      .ok [.var "a", .lit " and ", .var "b"] ∧
    ∃ r : RenderOutcome,
      parse_with_jinja "\x7b\x7b a \x7d\x7d and \x7b\x7b b \x7d\x7d"
        [("a", "X")] "?" = .ok r ∧
      render [.var "a", .lit " and ", .var "b"]
        (specAugment [("a", "X")]
          (findUndeclaredVariables [.var "a", .lit " and ", .var "b"]) "?") =
        some r.rendered :=
  ⟨rfl, jinja_renders_with_defaults _ _ _ _ rfl⟩

/-- Counterexample to claim C4 as stated: for `"Hello {{ name }}"` with
an empty mapping, exactly one diagnostic is emitted, but the event does
not record the missing variable's name `"name"` as its payload — it
records the template text. -/
theorem jinja_diag_records_template_not_var :
    ∃ r : RenderOutcome,
      parse_with_jinja "Hello \x7b\x7b name \x7d\x7d" [] "" = .ok r ∧
      r.diags.length = 1 ∧
      ("name", ([] : List (String × String))) ∉ r.diags := by
  refine ⟨⟨"Hello ", [("Hello \x7b\x7b name \x7d\x7d", [])], []⟩, rfl, rfl, ?_⟩
  decide

/-- Claim C4 (amended): the template resolver emits exactly one
diagnostic event per undeclared variable missing from the mapping, and
each event records the template text together with the original
parameter mapping. -/
theorem jinja_one_diag_per_missing_var (s : String)
    (params : List (String × String)) (dflt : String) (t : Template)
    (h : parseTemplate s = .ok t) :
    ∃ r : RenderOutcome, parse_with_jinja s params dflt = .ok r ∧
      r.diags =
        ((findUndeclaredVariables t).filter (fun v => !containsKey v params)).map
          (fun _ => (s, params)) := by
  obtain ⟨out, hout, hok⟩ := parse_with_jinja_ok s params dflt t h
  exact ⟨_, hok, rfl⟩

/-- Witness for the amended C4 at the spec's example template. -/
theorem jinja_one_diag_per_missing_var_witness :
    parseTemplate "Hello \x7b\x7b name \x7d\x7d" =
      .ok [.lit "Hello ", .var "name"] ∧
    ∃ r : RenderOutcome,
      parse_with_jinja "Hello \x7b\x7b name \x7d\x7d" [] "" = .ok r ∧
      r.diags = ((findUndeclaredVariables [.lit "Hello ", .var "name"]).filter
        (fun v => !containsKey v ([] : List (String × String)))).map
          (fun _ => ("Hello \x7b\x7b name \x7d\x7d",
            ([] : List (String × String)))) :=
  ⟨rfl, jinja_one_diag_per_missing_var _ _ "" _ rfl⟩

/-- Claim C5: a template that fails to parse makes the resolver
propagate the syntax error unchanged; it never recovers into a
successful outcome. -/
theorem jinja_syntax_error_propagates (s : String)
    (params : List (String × String)) (dflt : String) (e : JinjaError)
    (h : parseTemplate s = .error e) :
    parse_with_jinja s params dflt = .error e ∧
    ∀ r : RenderOutcome, parse_with_jinja s params dflt ≠ .ok r := by
  have hmain : parse_with_jinja s params dflt = .error e := by
    rw [parse_with_jinja, h]
  exact ⟨hmain, fun r hr => by rw [hmain] at hr; cases hr⟩

/-- Witness for C5 at a template with an unbalanced opening tag. -/
theorem jinja_syntax_error_propagates_witness :
    parseTemplate "Hello \x7b\x7b" =
      .error (.templateSyntaxError "expected a variable name") ∧
    parse_with_jinja "Hello \x7b\x7b" [] "" =
      .error (.templateSyntaxError "expected a variable name") :=
  ⟨rfl, (jinja_syntax_error_propagates "Hello \x7b\x7b" [] ""
    (.templateSyntaxError "expected a variable name") rfl).1⟩

/-- Claim C6: the template resolver never mutates the caller's original
parameter mapping — the mapping held by the caller after a successful
call is the one passed in. -/
theorem jinja_caller_params_unchanged (s : String)
    (params : List (String × String)) (dflt : String) (r : RenderOutcome)
    (h : parse_with_jinja s params dflt = .ok r) :
    r.callerParams = params := by
  cases ht : parseTemplate s with
  | error e =>
      rw [parse_with_jinja, ht] at h
      cases h
  | ok t =>
      obtain ⟨out, hout, hok⟩ := parse_with_jinja_ok s params dflt t ht
      rw [hok] at h
      cases h
      rfl

/-- Witness for C6: a call that substitutes a default still returns the
caller's mapping unchanged. -/
theorem jinja_caller_params_unchanged_witness :
    parse_with_jinja "Hello \x7b\x7b name \x7d\x7d" [("a", "b")] "" =
      .ok ⟨"Hello ", [("Hello \x7b\x7b name \x7d\x7d", [("a", "b")])],
        [("a", "b")]⟩ ∧
    RenderOutcome.callerParams
      ⟨"Hello ", [("Hello \x7b\x7b name \x7d\x7d", [("a", "b")])],
        [("a", "b")]⟩ = [("a", "b")] :=
  ⟨rfl, jinja_caller_params_unchanged "Hello \x7b\x7b name \x7d\x7d"
    [("a", "b")] ""
    ⟨"Hello ", [("Hello \x7b\x7b name \x7d\x7d", [("a", "b")])], [("a", "b")]⟩
    rfl⟩

/-- Claim C1: when the existence check reports every candidate as absent,
`get_new_id` returns exactly the first 10 characters of the URL-safe
base64 encoding of the SHA-1 digest of the UTF-8 encoding of the seed
name — a 10-character string over the URL-safe alphabet. -/
theorem get_new_id_fresh_hash (name : String) (fuel : Nat) (h : 0 < fuel) :
    get_new_id (fun _ => false) name fuel =
      some ((b64Encode (sha1 (utf8Encode name))).take 10) ∧
    ((b64Encode (sha1 (utf8Encode name))).take 10).length = 10 ∧
    ∀ c ∈ (b64Encode (sha1 (utf8Encode name))).take 10, c ∈ b64UrlAlphabet := by
  have hc0 : candidate name 0 = (b64Encode (sha1 (utf8Encode name))).take 10 := rfl
  refine ⟨?_, by rw [← hc0]; exact candidate_length name 0,
    by rw [← hc0]; exact mem_candidate_urlsafe name 0⟩
  match fuel, h with
  | f + 1, _ =>
      rw [get_new_id, getNewIdLoop]
      simpa using hc0

/-- Witness for C1 at the seed name `"abc"`. -/
theorem get_new_id_fresh_hash_witness :
    0 < 1 ∧ get_new_id (fun _ => false) "abc" 1 =
      some ((b64Encode (sha1 (utf8Encode "abc"))).take 10) :=
  ⟨Nat.one_pos, (get_new_id_fresh_hash "abc" 1 Nat.one_pos).1⟩

/-- Claim C2: when the existence check reports the first `k` candidates
as present and candidate `k` as absent, `get_new_id` returns candidate
`k` of the deterministic sequence whose candidate `0` is the truncated
hash of the seed name and whose candidate `j >= 1` is the truncated hash
of the seed name with the decimal counter `j` appended; every candidate
has exactly 10 characters. -/
theorem get_new_id_counter_candidates (name : String) (k : Nat)
    (ex : List Char → Bool)
    (hk : ∀ j, j < k → ex (candidate name j) = true)
    (hfree : ex (candidate name k) = false) :
    (∀ fuel, k < fuel → get_new_id ex name fuel = some (candidate name k)) ∧
    candidate name 0 = (b64Encode (sha1 (utf8Encode name))).take 10 ∧
    (∀ j, 1 ≤ j → candidate name j =
      (b64Encode (sha1 (utf8Encode name ++ decimalDigits j))).take 10) ∧
    ∀ j, (candidate name j).length = 10 := by
  refine ⟨?_, rfl, ?_, candidate_length name⟩
  · intro fuel hf
    exact getNewIdLoop_eq ex name fuel 0 k (Nat.zero_le k) (by omega)
      (fun j _ hj => hk j hj) hfree
  · intro j hj
    match j, hj with
    | j + 1, _ => rfl

set_option maxRecDepth 8000 in
/-- Witness for C2 at seed name `"a"` and `k = 1`: the predicate reports
exactly candidate 0 as present, so the counter-suffix candidate 1 is
returned. -/
theorem get_new_id_counter_candidates_witness :
    (∀ j, j < 1 →
      (fun c => c == candidate "a" 0) (candidate "a" j) = true) ∧
    (fun c => c == candidate "a" 0) (candidate "a" 1) = false ∧
    get_new_id (fun c => c == candidate "a" 0) "a" 2 =
      some (candidate "a" 1) := by
  have hk : ∀ j, j < 1 →
      (fun c => c == candidate "a" 0) (candidate "a" j) = true := by
    intro j hj
    have hj0 : j = 0 := by omega
    subst hj0
    decide
  have hfree : (fun c => c == candidate "a" 0) (candidate "a" 1) = false := by
    decide
  exact ⟨hk, hfree,
    (get_new_id_counter_candidates "a" 1 _ hk hfree).1 2 (by omega)⟩

/-- Claim C7: whenever the existence check returns false on at least one
candidate of the sequence, the generator terminates (given fuel beyond
the first free index, which is not bounded by the loop itself) and
returns the first candidate the check reports absent; every earlier
candidate was reported present. -/
theorem get_new_id_first_free (ex : List Char → Bool) (name : String)
    (h : ∃ j, ex (candidate name j) = false) (fuel : Nat)
    (hf : Nat.find h < fuel) :
    get_new_id ex name fuel = some (candidate name (Nat.find h)) ∧
    ∀ j, j < Nat.find h → ex (candidate name j) = true := by
  have hmin : ∀ j, j < Nat.find h → ex (candidate name j) = true := by
    intro j hj
    have hne := Nat.find_min h hj
    cases hx : ex (candidate name j) with
    | true => rfl
    | false => exact absurd hx hne
  exact ⟨getNewIdLoop_eq ex name fuel 0 (Nat.find h) (Nat.zero_le _)
    (by omega) (fun j _ hj => hmin j hj) (Nat.find_spec h), hmin⟩

/-- Witness for C7 with the always-absent predicate. -/
theorem get_new_id_first_free_witness :
    (∃ j, (fun _ => false) (candidate "a" j) = false) ∧
    get_new_id (fun _ => false) "a" 1 = some (candidate "a" 0) := by
  have h : ∃ j, (fun _ => false) (candidate "a" j) = false := ⟨0, rfl⟩
  have hzero : Nat.find h = 0 := (Nat.find_eq_zero h).mpr rfl
  have := (get_new_id_first_free (fun _ => false) "a" h 1 (by omega)).1
  rw [hzero] at this
  exact ⟨h, this⟩

/-- Claim C8: the generator is deterministic — two existence predicates
that give the same response on every candidate of the seed name's
sequence produce the same identifier. -/
theorem get_new_id_deterministic (ex1 ex2 : List Char → Bool)
    (name : String) (fuel : Nat)
    (h : ∀ j, ex1 (candidate name j) = ex2 (candidate name j)) :
    get_new_id ex1 name fuel = get_new_id ex2 name fuel :=
  getNewIdLoop_congr ex1 ex2 name h fuel 0

/-- Witness for C8 with two syntactically different predicates that agree
on every candidate. -/
theorem get_new_id_deterministic_witness :
    (∀ j, (fun _ => false) (candidate "a" j) =
      (fun _ => decide (1 = 2)) (candidate "a" j)) ∧
    get_new_id (fun _ => false) "a" 3 =
      get_new_id (fun _ => decide (1 = 2)) "a" 3 :=
  ⟨fun _ => rfl, get_new_id_deterministic _ _ "a" 3 (fun _ => rfl)⟩

/-- Claim C9: `get_comma_sep_string_from_list` returns the empty string
for an empty list, the sole element for a one-element list, and
otherwise all elements but the last joined by a comma-space separator,
followed by an "and" connective and the last element. -/
theorem get_comma_sep_cases :
    get_comma_sep_string_from_list [] = "" ∧
    (∀ x : String, get_comma_sep_string_from_list [x] = x) ∧
    ∀ (front : List String) (lastItem : String), front ≠ [] →
      get_comma_sep_string_from_list (front ++ [lastItem]) =
        String.intercalate ", " front ++ " and " ++ lastItem := by
  refine ⟨rfl, fun x => rfl, ?_⟩
  intro front lastItem hne
  have h1 : (front ++ [lastItem]).isEmpty = false := by
    cases front with
    | nil => exact absurd rfl hne
    | cons a l => rfl
  have h2 : ¬((front ++ [lastItem]).length = 1) := by
    have : front.length ≠ 0 := fun h => hne (List.eq_nil_of_length_eq_zero h)
    simp only [List.length_append, List.length_cons, List.length_nil]
    omega
  have h3 : (front ++ [lastItem]).getLast! = lastItem :=
    List.getLast!_of_getLast? (List.getLast?_concat front)
  rw [get_comma_sep_string_from_list,
    if_neg (by rw [h1]; exact Bool.false_ne_true), if_neg h2,
    List.dropLast_concat, h3]

/-- Witness for C9's multi-element case. -/
theorem get_comma_sep_cases_witness :
    (["a", "b"] : List String) ≠ [] ∧
    get_comma_sep_string_from_list ["a", "b", "c"] = "a, b and c" := by
  refine ⟨by decide, ?_⟩
  have h := get_comma_sep_cases.2.2 ["a", "b"] "c" (by decide)
  rw [show (["a", "b"] ++ ["c"] : List String) = ["a", "b", "c"] from rfl] at h
  rw [h]
  rfl

/-- Claim C10: for every entity class and every supplied or omitted
ancestor, `check_existence_of_name` with an empty name raises
`EntityIdNotFoundError` and performs no datastore query. -/
theorem check_existence_empty_name (entity : EntityClass)
    (ancestor : Option Nat) (name : String) (h : name = "") :
    check_existence_of_name entity name ancestor =
      (.error (.entityIdNotFoundError "No %s name supplied"
        entity.className.toLower), []) := by
  subst h
  rw [check_existence_of_name.eq_def, if_pos rfl]

/-- Witness for C10 on a concrete state-like entity class with an
omitted ancestor. -/
theorem check_existence_empty_name_witness :
    ("" : String) = "" ∧
    check_existence_of_name ⟨"State", true, fun _ _ => none⟩ "" none =
      (.error (.entityIdNotFoundError "No %s name supplied"
        ("State".toLower)), []) :=
  ⟨rfl, check_existence_empty_name ⟨"State", true, fun _ _ => none⟩ none "" rfl⟩
